/-
  Verification of the task data-access layer (models/task.py,
  repositories/task_repository.py, services/task_service.py).

  Shallow embedding conventions:
  * SQLite values are modelled by `Value` (NULL / INTEGER / TEXT / BLOB).
  * The store is a list of rowid-indexed named rows plus the next
    autoincrement id; every mutating repository call threads the store.
  * Python attribute lookup on the repository object is modelled by
    `lookupRepoMethod`; looking up a name the class does not define
    raises `AttributeError`, modelled as `Except.error`.
  * `datetime.now()` values are passed in as explicit string parameters.
-/
import Mathlib

namespace TaskApp

/-- A SQLite storage value (the dynamic values that cross the
    entity/store boundary). -/
inductive Value where
  | null
  | int (n : Int)
  | text (s : String)
  | blob (b : List Nat)
deriving Repr, DecidableEq

/-- Python truthiness (`bool(v)`) of a storage value: None, 0, "" and
    empty blobs are falsy. -/
def Value.truthy : Value → Bool
  | .null => false
  | .int n => n ≠ 0
  | .text s => s ≠ ""
  | .blob b => b ≠ []

/-- The Task dataclass of models/task.py, fields in declaration order:
    title, priority, is_completed, task_id, due_date, attachment,
    created_at, description, last_updated. -/
structure Task where
  title : String
  priority : Int := 3
  is_completed : Bool := false
  task_id : Option Int := none
  due_date : Option String := none
  attachment : Option String := none
  created_at : Option String := none
  description : Option String := none
  last_updated : Option String := none
deriving Repr, DecidableEq

/-- `Task.__post_init__`: if no creation time was provided, stamp the
    current time.  Every Python-side construction of a Task runs this. -/
def postInit (now : String) (t : Task) : Task :=
  match t.created_at with
  | none => { t with created_at := some now }
  | some _ => t

/-- Helper: an optional int as a storage value (None ↦ NULL). -/
def optInt : Option Int → Value
  | none => .null
  | some n => .int n

/-- Helper: an optional string as a storage value (None ↦ NULL). -/
def optText : Option String → Value
  | none => .null
  | some s => .text s

/-- `Task.to_dict`: `asdict` over the dataclass fields (declaration
    order), with `is_completed` coerced to 0/1, and with the `task_id`
    key popped when the identity is unset. -/
def Task.to_dict (t : Task) : List (String × Value) :=
  let base : List (String × Value) :=
    [("title", .text t.title),
     ("priority", .int t.priority),
     ("is_completed", .int (if t.is_completed then 1 else 0)),
     ("task_id", optInt t.task_id),
     ("due_date", optText t.due_date),
     ("attachment", optText t.attachment),
     ("created_at", optText t.created_at),
     ("description", optText t.description),
     ("last_updated", optText t.last_updated)]
  if t.task_id = none then base.filter (fun kv => kv.1 ≠ "task_id") else base

/-- Dict lookup (`d[k]` / `k in d`): first binding of the key, if any. -/
def getField (fields : List (String × Value)) (k : String) : Option Value :=
  (fields.find? (fun kv => kv.1 = k)).map (fun kv => kv.2)

/-- The nine attribute names of the Task dataclass (the keys
    `Task(**kwargs)` accepts). -/
def taskFieldNames : List String :=
  ["title", "priority", "is_completed", "task_id", "due_date",
   "attachment", "created_at", "description", "last_updated"]

/-- Decoding of an optional-int field value; `none` marks a value the
    typed embedding cannot hold (never produced by this program's rows). -/
def decodeOptInt : Value → Option (Option Int)
  | .null => some none
  | .int n => some (some n)
  | _ => none

/-- Decoding of an optional-string field value. -/
def decodeOptText : Value → Option (Option String)
  | .null => some none
  | .text s => some (some s)
  | _ => none

/-- Decoding of the priority field: absent keys take the dataclass
    default 3. -/
def decodePriority : Option Value → Option Int
  | none => some 3
  | some (.int n) => some n
  | some _ => none

/-- `Task.from_row`, named-access branch (`row.keys()` exists, the case
    the program always hits since the connection uses `sqlite3.Row`):
    copy every present key, coerce `is_completed` through `bool(...)`
    when present, fall back to the dataclass defaults for absent keys,
    then construct (running `__post_init__`).  Returns `none` where the
    Python call would raise (`Task(**kwargs)` with an unknown key or a
    missing title) or where a field value does not fit the typed model. -/
def from_row_named (now : String) (fields : List (String × Value)) : Option Task :=
  if fields.all (fun kv => kv.1 ∈ taskFieldNames) then
    match getField fields "title" with
    | some (.text title) =>
      match decodePriority (getField fields "priority"),
            decodeOptInt ((getField fields "task_id").getD .null),
            decodeOptText ((getField fields "due_date").getD .null),
            decodeOptText ((getField fields "attachment").getD .null),
            decodeOptText ((getField fields "created_at").getD .null),
            decodeOptText ((getField fields "description").getD .null),
            decodeOptText ((getField fields "last_updated").getD .null) with
      | some priority, some task_id, some due_date, some attachment,
        some created_at, some description, some last_updated =>
        some (postInit now
          { title := title
            priority := priority
            is_completed := match getField fields "is_completed" with
                            | none => false
                            | some v => v.truthy
            task_id := task_id
            due_date := due_date
            attachment := attachment
            created_at := created_at
            description := description
            last_updated := last_updated })
      | _, _, _, _, _, _, _ => none
    | _ => none
  else none

/-- `Task.from_row`, positional branch (row without `keys()`): map by
    the hardcoded column order id, title, description, priority,
    due_date, is_completed, attachment, created_at, last_updated, with
    out-of-range indices taking the listed defaults, then coerce
    `is_completed` through `bool(...)` and construct.  For a sequence
    input the `len(row) > i` guards prevent any IndexError, so the
    `Task(title="Unknown")` fallback of the source is unreachable here.
    Returns `none` where a field value does not fit the typed model. -/
def from_row_positional (now : String) (vals : List Value) : Option Task :=
  match (if vals.length > 1 then some (vals.getD 1 .null) else none) with
  | some (.text title) =>
    match decodeOptInt (if vals.length > 0 then vals.getD 0 .null else .null),
          decodeOptText (if vals.length > 2 then vals.getD 2 .null else .null),
          (if vals.length > 3 then decodePriority (some (vals.getD 3 .null)) else some 3),
          decodeOptText (if vals.length > 4 then vals.getD 4 .null else .null),
          decodeOptText (if vals.length > 6 then vals.getD 6 .null else .null),
          decodeOptText (if vals.length > 7 then vals.getD 7 .null else .null),
          decodeOptText (if vals.length > 8 then vals.getD 8 .null else .null) with
    | some task_id, some description, some priority, some due_date,
      some attachment, some created_at, some last_updated =>
      some (postInit now
        { title := title
          priority := priority
          is_completed := if vals.length > 5 then (vals.getD 5 .null).truthy else false
          task_id := task_id
          due_date := due_date
          attachment := attachment
          created_at := created_at
          description := description
          last_updated := last_updated })
    | _, _, _, _, _, _, _ => none
  | _ => none

/-- Gregorian leap-year test, as `datetime` uses it. -/
def isLeapYear (y : Nat) : Bool :=
  (y % 4 == 0 && y % 100 != 0) || y % 400 == 0

/-- Days in a month of the proleptic Gregorian calendar. -/
def daysInMonth (y m : Nat) : Nat :=
  if m = 2 then (if isLeapYear y then 29 else 28)
  else if m = 4 ∨ m = 6 ∨ m = 9 ∨ m = 11 then 30
  else 31

/-- Split a character list at every `-`. -/
def splitOnDash : List Char → List (List Char)
  | [] => [[]]
  | c :: rest =>
    let r := splitOnDash rest
    if c = '-' then [] :: r else (c :: r.headD []) :: r.tail

/-- Numeric value of a digit string. -/
def digitsToNat (cs : List Char) : Nat :=
  cs.foldl (fun acc c => acc * 10 + (c.toNat - 48)) 0

/-- All characters are ASCII digits and there is at least one. -/
def allDigits (cs : List Char) : Bool :=
  cs ≠ [] && cs.all (fun c => '0' ≤ c && c ≤ '9')

/-- `datetime.strptime(s, "%Y-%m-%d")` succeeds: the format's regex
    demands exactly four year digits, one or two month digits giving
    1–12, one or two day digits giving 1–31, and the constructed
    `datetime` additionally requires the day to exist in that month
    and the year to be at least MINYEAR = 1. -/
def isValidDate (s : String) : Bool :=
  match splitOnDash s.toList with
  | [ys, ms, ds] =>
    allDigits ys && allDigits ms && allDigits ds &&
    ys.length == 4 && ms.length ≤ 2 && ds.length ≤ 2 &&
    1 ≤ digitsToNat ys &&
    1 ≤ digitsToNat ms && digitsToNat ms ≤ 12 &&
    1 ≤ digitsToNat ds &&
    digitsToNat ds ≤ daysInMonth (digitsToNat ys) (digitsToNat ms)
  | _ => false

/-- The columns of the `tasks` table, in schema (physical) order; see
    `TaskRepository.create_table`. -/
def schemaColumns : List String :=
  ["task_id", "title", "description", "priority", "due_date",
   "is_completed", "attachment", "created_at", "last_updated"]

/-- The SQLite store restricted to the single `tasks` table: rowid-keyed
    named rows plus the next autoincrement identity. -/
structure Store where
  rows : List (Int × List (String × Value))
  nextId : Int
deriving Repr, DecidableEq

/-- The empty database right after `create_table` (AUTOINCREMENT ids
    start at 1). -/
def Store.empty : Store := { rows := [], nextId := 1 }

/-- Autoincrement ids already handed out are below the next one. -/
def Store.WF (s : Store) : Prop :=
  ∀ r ∈ s.rows, r.1 < s.nextId

/-- Materialize a full `tasks` row from an INSERT's column→value dict:
    every schema column takes the supplied value when its key is
    present, otherwise its column default (autoincrement id for
    `task_id`, 3 for `priority`, 0 for `is_completed`,
    CURRENT_TIMESTAMP for `created_at`, NULL elsewhere). -/
def mkSchemaRow (id : Int) (nowDb : String) (d : List (String × Value)) :
    List (String × Value) :=
  [("task_id", .int id),
   ("title", (getField d "title").getD .null),
   ("description", (getField d "description").getD .null),
   ("priority", (getField d "priority").getD (.int 3)),
   ("due_date", (getField d "due_date").getD .null),
   ("is_completed", (getField d "is_completed").getD (.int 0)),
   ("attachment", (getField d "attachment").getD .null),
   ("created_at", (getField d "created_at").getD (.text nowDb)),
   ("last_updated", (getField d "last_updated").getD .null)]

/-- Execute one parameterized INSERT built from a column dict: append
    the materialized row under the next autoincrement id. -/
def Store.insertRow (s : Store) (nowDb : String) (d : List (String × Value)) : Store :=
  { rows := s.rows ++ [(s.nextId, mkSchemaRow s.nextId nowDb d)],
    nextId := s.nextId + 1 }

/-- `TaskRepository.insert`: convert the task to a dict, drop the
    autoincrement `task_id` key if present, insert exactly the present
    fields, commit, and return `cursor.lastrowid`. -/
def TaskRepository.insert (s : Store) (nowDb : String) (t : Task) :
    Store × Option Int :=
  let d := (t.to_dict).filter (fun kv => kv.1 ≠ "task_id")
  (s.insertRow nowDb d, some s.nextId)

/-- `TaskRepository.insert_many`: empty input returns 0 without touching
    the store; otherwise convert every task to a dict, drop `task_id`
    keys, take the column list from the first dict, run one
    `executemany`, and return `cursor.rowcount` (one row per task).
    A dict missing one of the first dict's columns would raise KeyError
    in the source; theorem `to_dict` key-uniformity (claim C10) shows
    the lookup never misses, so the `.getD .null` default is inert. -/
def TaskRepository.insert_many (s : Store) (nowDb : String) (tasks : List Task) :
    Store × Option Int :=
  if tasks = [] then (s, some 0)
  else
    let dicts := tasks.map (fun t => (t.to_dict).filter (fun kv => kv.1 ≠ "task_id"))
    let columns := (dicts.headD []).map (fun kv => kv.1)
    let values := dicts.map (fun d => columns.map (fun c => (c, (getField d c).getD .null)))
    (values.foldl (fun acc row => acc.insertRow nowDb row) s, some (tasks.length : Int))

/-- `TaskRepository.find_by_id`: SELECT * WHERE task_id = ?, fetchone,
    `None` when no row matches, else `Task.from_row` on the named row. -/
def TaskRepository.find_by_id (s : Store) (now : String) (task_id : Int) :
    Option Task :=
  match s.rows.find? (fun r => r.1 = task_id) with
  | none => none
  | some r => from_row_named now r.2

/-- `TaskRepository.find_all`: SELECT *, fetchall, map `Task.from_row`
    over the rows. -/
def TaskRepository.find_all (s : Store) (now : String) : List Task :=
  s.rows.filterMap (fun r => from_row_named now r.2)

/-- SQL `=` between a bound parameter and a column value: NULL compares
    equal to nothing. -/
def sqlEq (a b : Value) : Bool :=
  match a, b with
  | .null, _ => false
  | _, .null => false
  | a, b => a = b

/-- `TaskRepository.find_by_criteria`: empty criteria fall back to
    `find_all`; otherwise the AND of per-column `col = ?` equalities
    filters the table (a criteria key that is no column makes the
    statement itself fail, caught and surfaced as the empty list). -/
def TaskRepository.find_by_criteria (s : Store) (now : String)
    (criteria : List (String × Value)) : List Task :=
  if criteria = [] then TaskRepository.find_all s now
  else if criteria.all (fun kv => kv.1 ∈ schemaColumns) then
    (s.rows.filter (fun r =>
        criteria.all (fun kv => sqlEq ((getField r.2 kv.1).getD .null) kv.2))).filterMap
      (fun r => from_row_named now r.2)
  else []

/-- The statement text and bound parameters `TaskRepository.find_by_criteria`
    builds for a non-empty criteria dict: `col = ?` fragments joined with
    AND, the values passed separately as the parameter list. -/
def find_by_criteria_stmt (criteria : List (String × Value)) :
    String × List Value :=
  ("SELECT * FROM tasks WHERE " ++
     String.intercalate " AND " (criteria.map (fun kv => kv.1 ++ " = ?")),
   criteria.map (fun kv => kv.2))

/-- The statement text and bound parameters
    `TaskRepository.find_by_title_contains` builds: a constant LIKE
    query, the substring wrapped in `%…%` passed as the sole parameter. -/
def find_by_title_contains_stmt (title_part : String) : String × List Value :=
  ("SELECT * FROM tasks WHERE title LIKE ?",
   [.text ("%" ++ title_part ++ "%")])

/-- An exception escaping a service call (the repository itself converts
    every `sqlite3.Error` to a failure return value, but attribute
    errors raised while looking the repository method up are not
    caught anywhere in the service). -/
structure PyError where
  kind : String
  detail : String
deriving Repr, DecidableEq

/-- `AttributeError: 'TaskRepository' object has no attribute '…'`. -/
def attrError (name : String) : PyError := ⟨"AttributeError", name⟩

/-- Marker for match arms that cannot be reached because the attribute
    lookup feeding them evaluates to `none`: the looked-up name is,
    definitionally, not among `TaskRepository`'s methods, so the call
    raises before the arm's code could run. -/
def unreachableArm : PyError := ⟨"UnreachableArm", ""⟩

/-- The callable attributes the class `TaskRepository` defines
    (task_repository.py): anything else raises AttributeError. -/
inductive RepoMethod where
  | create_table | insert | insert_many | update | delete
  | find_by_id | find_all | find_by_criteria | find_by_title_contains
deriving Repr, DecidableEq

/-- Python attribute lookup `self.task_repository.<name>`. -/
def lookupRepoMethod : String → Option RepoMethod
  | "create_table" => some .create_table
  | "insert" => some .insert
  | "insert_many" => some .insert_many
  | "update" => some .update
  | "delete" => some .delete
  | "find_by_id" => some .find_by_id
  | "find_all" => some .find_all
  | "find_by_criteria" => some .find_by_criteria
  | "find_by_title_contains" => some .find_by_title_contains
  | _ => none

/-- Priority normalization of `TaskService.create_task` lines 40–42:
    out-of-range values fall back to the default 3 with a warning. -/
def normalize_priority (priority : Int) : Int :=
  if priority < 1 ∨ priority > 5 then 3 else priority

/-- Due-date normalization of `TaskService.create_task` lines 45–51:
    a truthy date string that `strptime` rejects is dropped to None
    with a warning (a falsy `""` skips the check and is kept). -/
def normalize_due_date (due_date : Option String) : Option String :=
  match due_date with
  | none => none
  | some d => if d = "" then some d
              else if isValidDate d then some d else none

/-- The Task entity `TaskService.create_task` builds (lines 59–66)
    after normalizing priority and due date; `__post_init__` stamps
    `created_at` with the current time. -/
def TaskService.create_task_entity (now : String) (title : String)
    (description : Option String) (priority : Int) (due_date : Option String)
    (is_completed : Bool) (attachment : Option String) : Task :=
  postInit now
    { title := title
      description := description
      priority := normalize_priority priority
      due_date := normalize_due_date due_date
      is_completed := is_completed
      attachment := attachment }

/-- `TaskService.create_task`: normalize priority and due date, reject
    an empty (falsy) title with `None` before any repository use, else
    build the entity and call `self.task_repository.insert_task(task)` —
    an attribute the repository does not define. -/
def TaskService.create_task (s : Store) (now : String) (title : String)
    (description : Option String) (priority : Int) (due_date : Option String)
    (is_completed : Bool) (attachment : Option String) :
    Store × Except PyError (Option Int) :=
  if title = "" then (s, .ok none)
  else
    let task := TaskService.create_task_entity now title description priority
        due_date is_completed attachment
    match lookupRepoMethod "insert_task" with
    | none => (s, .error (attrError "insert_task"))
    | some _ => (s, .error unreachableArm)

/-- One element of the dict list handed to
    `TaskService.create_tasks_batch`; `none` models an absent key. -/
structure TaskItem where
  title : Option String := none
  description : Option String := none
  priority : Option Int := none
  due_date : Option String := none
  is_completed : Option Bool := none
  attachment : Option String := none
deriving Repr, DecidableEq

/-- The Task entity one item of `TaskService.create_tasks_batch`
    produces: an item whose `title` key is missing or falsy is skipped
    (`none`, with a warning); the rest take the `.get` defaults for the
    optional fields and run `__post_init__`. -/
def TaskService.batch_entity (now : String) (item : TaskItem) : Option Task :=
  match item.title with
  | none => none
  | some t =>
    if t = "" then none
    else some (postInit now
      { title := t
        description := item.description
        priority := item.priority.getD 3
        due_date := item.due_date
        is_completed := item.is_completed.getD false
        attachment := item.attachment })

/-- `TaskService.create_tasks_batch`: an empty input returns 0; items
    failing title validation are skipped without aborting; if nothing
    survives, return 0 without touching the repository; otherwise hand
    the surviving tasks to `insert_many` in one call and return its
    result. -/
def TaskService.create_tasks_batch (s : Store) (now nowDb : String)
    (items : List TaskItem) : Store × Except PyError (Option Int) :=
  if items = [] then (s, .ok (some 0))
  else
    let tasks := items.filterMap (TaskService.batch_entity now)
    if tasks = [] then (s, .ok (some 0))
    else
      match lookupRepoMethod "insert_many" with
      | none => (s, .error (attrError "insert_many"))
      | some _ =>
        let r := TaskRepository.insert_many s nowDb tasks
        (r.1, .ok r.2)

/-- `TaskService.update_task` (kwargs as name→value pairs): the first
    statement of the body is `self.task_repository.find_task_by_id(task_id)`,
    an attribute the repository does not define, so the lookup raises
    before any row is read, any field applied, or `update_task` looked
    up — the rest of the source body (lines 121–133) is unreachable. -/
def TaskService.update_task (s : Store) (task_id : Int)
    (kwargs : List (String × Value)) : Store × Except PyError Bool :=
  match lookupRepoMethod "find_task_by_id" with
  | none => (s, .error (attrError "find_task_by_id"))
  | some _ => (s, .error unreachableArm)

/-- `TaskService.complete_task`: sugar for
    `update_task(task_id, is_completed=True)` (Python's `True` is the
    integer 1). -/
def TaskService.complete_task (s : Store) (task_id : Int) :
    Store × Except PyError Bool :=
  TaskService.update_task s task_id [("is_completed", .int 1)]

/-- `TaskService.delete_task`: returns
    `self.task_repository.delete_task(task_id)` — an attribute the
    repository does not define (its method is `delete`). -/
def TaskService.delete_task (s : Store) (task_id : Int) :
    Store × Except PyError Bool :=
  match lookupRepoMethod "delete_task" with
  | none => (s, .error (attrError "delete_task"))
  | some _ => (s, .error unreachableArm)

/-- `TaskService.get_task`: returns
    `self.task_repository.find_task_by_id(task_id)` — an attribute the
    repository does not define (its method is `find_by_id`). -/
def TaskService.get_task (s : Store) (now : String) (task_id : Int) :
    Except PyError (Option Task) :=
  match lookupRepoMethod "find_task_by_id" with
  | none => .error (attrError "find_task_by_id")
  | some _ => .error unreachableArm

/-- `TaskService.get_all_tasks`: returns
    `self.task_repository.find_all_tasks()` — an attribute the
    repository does not define (its method is `find_all`). -/
def TaskService.get_all_tasks (s : Store) (now : String) :
    Except PyError (List Task) :=
  match lookupRepoMethod "find_all_tasks" with
  | none => .error (attrError "find_all_tasks")
  | some _ => .error unreachableArm

/-- `TaskService.get_tasks_by_priority`: returns
    `self.task_repository.find_by_criteria({'priority': priority})`. -/
def TaskService.get_tasks_by_priority (s : Store) (now : String)
    (priority : Int) : Except PyError (List Task) :=
  match lookupRepoMethod "find_by_criteria" with
  | none => .error (attrError "find_by_criteria")
  | some _ => .ok (TaskRepository.find_by_criteria s now [("priority", .int priority)])

/-- `TaskService.get_overdue_tasks`: computes today's date string, then
    calls `self.task_repository.find_all_tasks()` — an attribute the
    repository does not define — so the in-memory overdue filter of
    lines 207–212 is unreachable. -/
def TaskService.get_overdue_tasks (s : Store) (today : String) :
    Except PyError (List Task) :=
  match lookupRepoMethod "find_all_tasks" with
  | none => .error (attrError "find_all_tasks")
  | some _ => .error unreachableArm

/-- `TaskService.get_tasks_due_within_days`: computes today's and the
    range-end date strings, then calls
    `self.task_repository.find_all_tasks()` — an attribute the
    repository does not define — so the in-memory due-window filter of
    lines 242–245 is unreachable. -/
def TaskService.get_tasks_due_within_days (s : Store) (today : String)
    (days : Int) : Except PyError (List Task) :=
  match lookupRepoMethod "find_all_tasks" with
  | none => .error (attrError "find_all_tasks")
  | some _ => .error unreachableArm

/-- Decoding inverts the optional-text encoding. -/
theorem decodeOptText_optText (x : Option String) :
    decodeOptText (optText x) = some x := by
  cases x <;> rfl

/-- Truthiness of the 0/1 encoding of a boolean recovers the boolean. -/
theorem truthy_boolEncoding (b : Bool) :
    (Value.int (if b then 1 else 0)).truthy = b := by
  cases b <;> rfl

/-- A row appended past all smaller rowids is what `find?` on its id
    returns. -/
theorem find?_append_fresh (rows : List (Int × List (String × Value)))
    (n : Int) (row : List (String × Value)) (h : ∀ r ∈ rows, r.1 < n) :
    (rows ++ [(n, row)]).find? (fun r => r.1 = n) = some (n, row) := by
  induction rows with
  | nil => simp
  | cons a l ih =>
    have ha : a.1 ≠ n := by
      have := h a (List.mem_cons_self a l)
      omega
    rw [List.cons_append, List.find?_cons_of_neg, ih]
    · intro r hr
      exact h r (List.mem_cons_of_mem a hr)
    · simp [ha]

/-- The length of a `filterMap` counts the elements the function keeps. -/
theorem length_filterMap_eq_countP {α β : Type} (f : α → Option β) :
    ∀ l : List α, (l.filterMap f).length = l.countP (fun a => (f a).isSome)
  | [] => rfl
  | a :: l => by
    rw [List.filterMap_cons, List.countP_cons]
    cases h : f a <;>
      simp [length_filterMap_eq_countP f l, h]

/-- Reconstructing the row `insert` materializes for a task recovers the
    task, with the store-assigned identity in place of the old one —
    provided the entity carries a creation stamp (every Python-side
    construction does, via `__post_init__`). -/
theorem from_row_named_mkSchemaRow (now nowDb : String) (id : Int)
    (t : Task) (c : String) (hc : t.created_at = some c) :
    from_row_named now
        (mkSchemaRow id nowDb ((t.to_dict).filter (fun kv => kv.1 ≠ "task_id")))
      = some { t with task_id := some id } := by
  obtain ⟨title, priority, is_completed, task_id, due_date, attachment,
    created_at, description, last_updated⟩ := t
  simp only at hc
  subst hc
  cases task_id <;> cases due_date <;> cases attachment <;>
    cases description <;> cases last_updated <;> cases is_completed <;> rfl

/-- C1: deleteTask, getTask and getAllTasks do NOT delegate to the
    repository's delete / find_by_id / find_all — they look up the
    attributes `delete_task`, `find_task_by_id` and `find_all_tasks`,
    which TaskRepository does not define, so each raises AttributeError
    and leaves the store untouched; only getTasksByPriority delegates
    (to find_by_criteria on the priority column) and returns its result
    unchanged. -/
theorem claim1_service_delegation_evaluated :
    (∀ (s : Store) (task_id : Int),
       TaskService.delete_task s task_id = (s, .error (attrError "delete_task"))) ∧
    (∀ (s : Store) (now : String) (task_id : Int),
       TaskService.get_task s now task_id = .error (attrError "find_task_by_id")) ∧
    (∀ (s : Store) (now : String),
       TaskService.get_all_tasks s now = .error (attrError "find_all_tasks")) ∧
    (∀ (s : Store) (now : String) (priority : Int),
       TaskService.get_tasks_by_priority s now priority
         = .ok (TaskRepository.find_by_criteria s now [("priority", .int priority)])) :=
  ⟨fun _ _ => rfl, fun _ _ _ => rfl, fun _ _ => rfl, fun _ _ _ => rfl⟩

/-- C2: createTask (with a non-empty title), updateTask, completeTask,
    getOverdueTasks and getTasksDueWithinDays each attempt to invoke a
    repository method (insert_task, find_task_by_id, find_all_tasks)
    that TaskRepository does not define, so each fails with an
    AttributeError instead of returning its documented result, and the
    store is left untouched. -/
theorem claim2_missing_repo_methods :
    (∀ (s : Store) (now title : String) (description : Option String)
       (priority : Int) (due_date : Option String) (is_completed : Bool)
       (attachment : Option String), title ≠ "" →
       TaskService.create_task s now title description priority due_date
           is_completed attachment
         = (s, .error (attrError "insert_task"))) ∧
    (∀ (s : Store) (task_id : Int) (kwargs : List (String × Value)),
       TaskService.update_task s task_id kwargs
         = (s, .error (attrError "find_task_by_id"))) ∧
    (∀ (s : Store) (task_id : Int),
       TaskService.complete_task s task_id
         = (s, .error (attrError "find_task_by_id"))) ∧
    (∀ (s : Store) (today : String),
       TaskService.get_overdue_tasks s today
         = .error (attrError "find_all_tasks")) ∧
    (∀ (s : Store) (today : String) (days : Int),
       TaskService.get_tasks_due_within_days s today days
         = .error (attrError "find_all_tasks")) := by
  refine ⟨?_, fun _ _ _ => rfl, fun _ _ => rfl, fun _ _ => rfl, fun _ _ _ => rfl⟩
  intro s now title description priority due_date is_completed attachment h
  simp [TaskService.create_task, h, lookupRepoMethod]

/-- Witness for C2 at concrete inputs. -/
theorem claim2_missing_repo_methods_witness :
    TaskService.create_task Store.empty "2024-01-01 00:00:00" "Task" none 3
        none false none
      = (Store.empty, .error (attrError "insert_task")) ∧
    TaskService.update_task Store.empty 1 [("title", .text "x")]
      = (Store.empty, .error (attrError "find_task_by_id")) ∧
    TaskService.complete_task Store.empty 1
      = (Store.empty, .error (attrError "find_task_by_id")) ∧
    TaskService.get_overdue_tasks Store.empty "2024-01-01"
      = .error (attrError "find_all_tasks") ∧
    TaskService.get_tasks_due_within_days Store.empty "2024-01-01" 7
      = .error (attrError "find_all_tasks") :=
  ⟨claim2_missing_repo_methods.1 Store.empty "2024-01-01 00:00:00" "Task"
      none 3 none false none (by decide),
   claim2_missing_repo_methods.2.1 Store.empty 1 [("title", .text "x")],
   claim2_missing_repo_methods.2.2.1 Store.empty 1,
   claim2_missing_repo_methods.2.2.2.1 Store.empty "2024-01-01",
   claim2_missing_repo_methods.2.2.2.2 Store.empty "2024-01-01" 7⟩

/-- C3 (amended): inserting an entity (with its construction-time
    creation stamp) and fetching by the returned identity yields an
    entity that carries that identity and agrees with the original on
    every field other than the identity and last_updated (created_at
    and the 0/1-coerced is_completed included). -/
theorem claim3_roundtrip_amended (s : Store) (hwf : s.WF)
    (now nowDb : String) (t : Task) (c : String)
    (hc : t.created_at = some c) :
    ∃ id, (TaskRepository.insert s nowDb t).2 = some id ∧
      ∃ u, TaskRepository.find_by_id (TaskRepository.insert s nowDb t).1 now id
             = some u ∧
        u.task_id = some id ∧
        u.title = t.title ∧
        u.description = t.description ∧
        u.priority = t.priority ∧
        u.due_date = t.due_date ∧
        u.is_completed = t.is_completed ∧
        u.attachment = t.attachment ∧
        u.created_at = t.created_at := by
  refine ⟨s.nextId, rfl, { t with task_id := some s.nextId }, ?_,
    rfl, rfl, rfl, rfl, rfl, rfl, rfl, rfl⟩
  unfold TaskRepository.find_by_id TaskRepository.insert Store.insertRow
  simp only
  rw [find?_append_fresh _ _ _ hwf]
  exact from_row_named_mkSchemaRow now nowDb s.nextId t c hc

/-- Witness for C3's amended round-trip at a concrete entity. -/
theorem claim3_roundtrip_amended_witness :
    ∃ id, (TaskRepository.insert Store.empty "2024-01-01 00:00:00"
             { title := "write spec", created_at := some "2024-01-01 08:00:00" }).2
            = some id ∧
      ∃ u, TaskRepository.find_by_id
             (TaskRepository.insert Store.empty "2024-01-01 00:00:00"
               { title := "write spec", created_at := some "2024-01-01 08:00:00" }).1
             "2024-01-02 00:00:00" id
           = some u ∧
        u.task_id = some id ∧
        u.title = "write spec" ∧
        u.description = none ∧
        u.priority = 3 ∧
        u.due_date = none ∧
        u.is_completed = false ∧
        u.attachment = none ∧
        u.created_at = some "2024-01-01 08:00:00" :=
  claim3_roundtrip_amended Store.empty (by intro r hr; simp [Store.empty] at hr)
    "2024-01-02 00:00:00" "2024-01-01 00:00:00"
    { title := "write spec", created_at := some "2024-01-01 08:00:00" }
    "2024-01-01 08:00:00" rfl

/-- C3 counterexample to the claim as stated: for an unsaved entity
    (identity unset) the fetched entity's task_id is the store-assigned
    identity, not the original's: so not every field except
    last_updated is preserved. -/
theorem claim3_roundtrip_counterexample :
    (TaskRepository.insert Store.empty "2024-01-01 00:00:00"
       { title := "a", created_at := some "2024-01-01 08:00:00" }).2 = some 1 ∧
    ∃ u, TaskRepository.find_by_id
           (TaskRepository.insert Store.empty "2024-01-01 00:00:00"
             { title := "a", created_at := some "2024-01-01 08:00:00" }).1
           "2024-01-02 00:00:00" 1
         = some u ∧
      u.task_id ≠
        ({ title := "a", created_at := some "2024-01-01 08:00:00" } : Task).task_id := by
  refine ⟨rfl, ({ title := "a", created_at := some "2024-01-01 08:00:00", task_id := some 1 } : Task), ?_, ?_⟩
  · rfl
  · decide

/-- C4: createTask with an empty title reports an error and returns
    None without invoking the repository: the store comes back
    unchanged and no row is inserted, whatever the other arguments. -/
theorem claim4_empty_title_rejected (s : Store) (now : String)
    (description : Option String) (priority : Int) (due_date : Option String)
    (is_completed : Bool) (attachment : Option String) :
    TaskService.create_task s now "" description priority due_date
        is_completed attachment
      = (s, .ok none) := rfl

/-- C5: a createTask call with priority outside 1–5 is not rejected for
    that reason — the entity it builds carries the default priority 3 —
    but the call then dies looking up the undefined repository method
    `insert_task`, so no row with priority 3 (or any row) is persisted. -/
theorem claim5_priority_clamped_not_persisted (priority : Int)
    (hp : priority < 1 ∨ priority > 5) (s : Store) (now title : String)
    (description : Option String) (due_date : Option String)
    (is_completed : Bool) (attachment : Option String) (ht : title ≠ "") :
    (TaskService.create_task_entity now title description priority due_date
        is_completed attachment).priority = 3 ∧
    TaskService.create_task s now title description priority due_date
        is_completed attachment
      = (s, .error (attrError "insert_task")) := by
  constructor
  · simp [TaskService.create_task_entity, postInit, normalize_priority, hp]
  · simp [TaskService.create_task, ht, lookupRepoMethod]

/-- Witness for C5 at priority 10. -/
theorem claim5_priority_clamped_not_persisted_witness :
    (TaskService.create_task_entity "2024-01-01 08:00:00" "Task" none 10 none
        false none).priority = 3 ∧
    TaskService.create_task Store.empty "2024-01-01 08:00:00" "Task" none 10
        none false none
      = (Store.empty, .error (attrError "insert_task")) :=
  claim5_priority_clamped_not_persisted 10 (by decide) Store.empty
    "2024-01-01 08:00:00" "Task" none none false none (by decide)

/-- C6: a truthy due-date string that strptime rejects is dropped to
    None (warning, not rejection) in the entity createTask builds —
    "2024-13-40" is such a string — but the create nevertheless fails
    at the undefined repository method `insert_task`, so no row (with
    or without a due date) is inserted. -/
theorem claim6_invalid_date_dropped_not_persisted :
    (∀ d : String, d ≠ "" → isValidDate d = false →
       normalize_due_date (some d) = none) ∧
    isValidDate "2024-13-40" = false ∧
    (∀ (s : Store) (now title : String) (description : Option String)
       (priority : Int) (is_completed : Bool) (attachment : Option String),
       title ≠ "" →
       (TaskService.create_task_entity now title description priority
           (some "2024-13-40") is_completed attachment).due_date = none ∧
       TaskService.create_task s now title description priority
           (some "2024-13-40") is_completed attachment
         = (s, .error (attrError "insert_task"))) := by
  refine ⟨?_, by decide, ?_⟩
  · intro d hd hv
    simp [normalize_due_date, hd, hv]
  · intro s now title description priority is_completed attachment ht
    have hv : isValidDate "2024-13-40" = false := by decide
    constructor
    · simp [TaskService.create_task_entity, postInit, normalize_due_date, hv]
    · simp [TaskService.create_task, ht, lookupRepoMethod]

/-- Witness for C6 at the concrete input of the spec's scenario. -/
theorem claim6_invalid_date_dropped_not_persisted_witness :
    normalize_due_date (some "2024-13-40") = none ∧
    (TaskService.create_task_entity "2024-01-01 08:00:00" "Task" none 3
        (some "2024-13-40") false none).due_date = none ∧
    TaskService.create_task Store.empty "2024-01-01 08:00:00" "Task" none 3
        (some "2024-13-40") false none
      = (Store.empty, .error (attrError "insert_task")) :=
  ⟨claim6_invalid_date_dropped_not_persisted.1 "2024-13-40" (by decide)
      (by decide),
   claim6_invalid_date_dropped_not_persisted.2.2 Store.empty
     "2024-01-01 08:00:00" "Task" none 3 false none (by decide)⟩

/-- C7: the query statements are fully parameterized with respect to
    the caller-supplied values: the text find_by_criteria builds
    depends only on the criteria's column names, with the values passed
    as the bound-parameter list, and the text find_by_title_contains
    builds is one fixed LIKE statement, with the substring wrapped in
    both-side wildcards passed as its sole bound parameter. -/
theorem claim7_query_building_parameterized :
    (∀ c c' : List (String × Value),
       c.map Prod.fst = c'.map Prod.fst →
       (find_by_criteria_stmt c).1 = (find_by_criteria_stmt c').1) ∧
    (∀ c : List (String × Value),
       (find_by_criteria_stmt c).2 = c.map Prod.snd) ∧
    (∀ t : String,
       (find_by_title_contains_stmt t).1
         = "SELECT * FROM tasks WHERE title LIKE ?") ∧
    (∀ t : String,
       (find_by_title_contains_stmt t).2 = [.text ("%" ++ t ++ "%")]) := by
  refine ⟨?_, fun _ => rfl, fun _ => rfl, fun _ => rfl⟩
  intro c c' h
  have hmap : c.map (fun kv => kv.1 ++ " = ?") = c'.map (fun kv => kv.1 ++ " = ?") := by
    have h1 : (c.map Prod.fst).map (fun x => x ++ " = ?")
        = (c'.map Prod.fst).map (fun x => x ++ " = ?") := by rw [h]
    simpa [List.map_map, Function.comp] using h1
  simp [find_by_criteria_stmt, hmap]

/-- Witness for C7's parameterization at concrete criteria sharing the
    same columns but different (attack-shaped) values. -/
theorem claim7_query_building_parameterized_witness :
    (find_by_criteria_stmt [("priority", .int 3)]).1
      = (find_by_criteria_stmt [("priority", .text "3 OR 1=1")]).1 ∧
    (find_by_criteria_stmt [("priority", .text "3 OR 1=1")]).2
      = [.text "3 OR 1=1"] ∧
    (find_by_title_contains_stmt "x' OR '1'='1").1
      = "SELECT * FROM tasks WHERE title LIKE ?" ∧
    (find_by_title_contains_stmt "x' OR '1'='1").2
      = [.text ("%" ++ "x' OR '1'='1" ++ "%")] :=
  ⟨claim7_query_building_parameterized.1 [("priority", .int 3)]
      [("priority", .text "3 OR 1=1")] rfl,
   claim7_query_building_parameterized.2.1 [("priority", .text "3 OR 1=1")],
   claim7_query_building_parameterized.2.2.1 "x' OR '1'='1",
   claim7_query_building_parameterized.2.2.2 "x' OR '1'='1"⟩

/-- C8: createTasksBatch skips items with a missing or empty title
    without aborting, hands the surviving items to insert_many in one
    call, and reports a created count equal to the number of valid
    items — in particular 3 for a batch of 3 valid plus 1 empty-title
    item. -/
theorem claim8_batch_counts_valid_items :
    (∀ (s : Store) (now nowDb : String) (items : List TaskItem),
       (TaskService.create_tasks_batch s now nowDb items).2
         = .ok (some ((items.countP
             (fun i => (TaskService.batch_entity now i).isSome) : Nat) : Int))) ∧
    (∀ (s : Store) (now nowDb : String) (items : List TaskItem),
       items.filterMap (TaskService.batch_entity now) ≠ [] →
       TaskService.create_tasks_batch s now nowDb items
         = ((TaskRepository.insert_many s nowDb
               (items.filterMap (TaskService.batch_entity now))).1,
            .ok (TaskRepository.insert_many s nowDb
               (items.filterMap (TaskService.batch_entity now))).2)) ∧
    (TaskService.create_tasks_batch Store.empty "2024-01-01 08:00:00"
        "2024-01-01 08:00:00"
        [{ title := some "a" }, { title := some "b" }, { title := some "" },
         { title := some "c" }]).2
      = .ok (some 3) := by
  refine ⟨?_, ?_, by rfl⟩
  · intro s now nowDb items
    by_cases h0 : items = []
    · subst h0; rfl
    · simp only [TaskService.create_tasks_batch, h0, if_neg, ite_false]
      by_cases h1 : items.filterMap (TaskService.batch_entity now) = []
      · rw [if_pos h1]
        have hlen := length_filterMap_eq_countP (TaskService.batch_entity now) items
        rw [h1] at hlen
        simp only [List.length_nil] at hlen
        rw [← hlen]
        rfl
      · rw [if_neg h1]
        simp only [lookupRepoMethod, TaskRepository.insert_many, if_neg h1]
        rw [← length_filterMap_eq_countP (TaskService.batch_entity now) items]
  · intro s now nowDb items h1
    have h0 : items ≠ [] := by
      intro h; rw [h] at h1; exact h1 rfl
    simp only [TaskService.create_tasks_batch, h0, ite_false, if_neg h1,
      lookupRepoMethod]

/-- Witness for C8's single-call clause at a concrete batch. -/
theorem claim8_batch_counts_valid_items_witness :
    (TaskService.create_tasks_batch Store.empty "2024-01-01 08:00:00"
        "2024-01-01 08:00:00" [{ title := some "a" }]).2
      = .ok (some ((([({ title := some "a" } : TaskItem)].countP
          (fun i => (TaskService.batch_entity "2024-01-01 08:00:00" i).isSome) : Nat) : Int))) ∧
    TaskService.create_tasks_batch Store.empty "2024-01-01 08:00:00"
        "2024-01-01 08:00:00" [{ title := some "a" }]
      = ((TaskRepository.insert_many Store.empty "2024-01-01 08:00:00"
            ([({ title := some "a" } : TaskItem)].filterMap
              (TaskService.batch_entity "2024-01-01 08:00:00"))).1,
         .ok (TaskRepository.insert_many Store.empty "2024-01-01 08:00:00"
            ([({ title := some "a" } : TaskItem)].filterMap
              (TaskService.batch_entity "2024-01-01 08:00:00"))).2) :=
  ⟨claim8_batch_counts_valid_items.1 Store.empty "2024-01-01 08:00:00"
      "2024-01-01 08:00:00" [{ title := some "a" }],
   claim8_batch_counts_valid_items.2.1 Store.empty "2024-01-01 08:00:00"
      "2024-01-01 08:00:00" [{ title := some "a" }] (by decide)⟩

/-- C9: created_at is assigned exactly once, at construction, and only
    when absent (post-init keeps a present stamp unchanged and fills an
    absent one with the current time); and reconstructing an entity
    from a stored row that carries a created_at value — by name or by
    position — reproduces that stored value, never regenerating it from
    the current time. -/
theorem claim9_created_at_assigned_once :
    (∀ (now : String) (t : Task) (c : String),
       t.created_at = some c → postInit now t = t) ∧
    (∀ (now : String) (t : Task),
       t.created_at = none → (postInit now t).created_at = some now) ∧
    (∀ (now : String) (fields : List (String × Value)) (t : Task) (c : String),
       getField fields "created_at" = some (.text c) →
       from_row_named now fields = some t →
       t.created_at = some c) ∧
    (∀ (now : String) (vals : List Value) (t : Task) (c : String),
       vals.length > 7 → vals.getD 7 .null = .text c →
       from_row_positional now vals = some t →
       t.created_at = some c) := by
  refine ⟨?_, ?_, ?_, ?_⟩
  · intro now t c h
    simp [postInit, h]
  · intro now t h
    simp [postInit, h]
  · intro now fields t c h1 h2
    simp only [from_row_named, h1, Option.getD_some] at h2
    repeat' split at h2
    all_goals try exact Option.noConfusion h2
    all_goals
      injection h2 with h2
      subst h2
      simp_all [decodeOptText, postInit]
      try (split <;> simp_all)
  · intro now vals t c h0 h1 h2
    simp only [from_row_positional, if_pos h0, h1] at h2
    repeat' split at h2
    all_goals try exact Option.noConfusion h2
    all_goals
      injection h2 with h2
      subst h2
      simp_all [decodeOptText, postInit]
      try (split <;> simp_all)

/-- Witness for C9 at concrete inputs: a kept stamp, a filled stamp,
    and a named and a positional row each carrying a creation stamp. -/
theorem claim9_created_at_assigned_once_witness :
    postInit "2024-02-02 00:00:00"
        { title := "t", created_at := some "2024-01-01 08:00:00" }
      = { title := "t", created_at := some "2024-01-01 08:00:00" } ∧
    (postInit "2024-02-02 00:00:00" { title := "t" }).created_at
      = some "2024-02-02 00:00:00" ∧
    ({ title := "t", priority := 3, created_at := some "2024-01-01 08:00:00" }
        : Task).created_at = some "2024-01-01 08:00:00" ∧
    ({ title := "t", task_id := some 1,
        created_at := some "2024-01-01 08:00:00" } : Task).created_at
      = some "2024-01-01 08:00:00" :=
  ⟨claim9_created_at_assigned_once.1 "2024-02-02 00:00:00"
      { title := "t", created_at := some "2024-01-01 08:00:00" }
      "2024-01-01 08:00:00" rfl,
   claim9_created_at_assigned_once.2.1 "2024-02-02 00:00:00"
      { title := "t" } rfl,
   claim9_created_at_assigned_once.2.2.1 "2024-02-02 00:00:00"
      [("title", .text "t"), ("created_at", .text "2024-01-01 08:00:00")]
      { title := "t", priority := 3, created_at := some "2024-01-01 08:00:00" }
      "2024-01-01 08:00:00" rfl rfl,
   claim9_created_at_assigned_once.2.2.2 "2024-02-02 00:00:00"
      [.int 1, .text "t", .null, .int 3, .null, .int 0, .null,
       .text "2024-01-01 08:00:00", .null]
      { title := "t", task_id := some 1,
        created_at := some "2024-01-01 08:00:00" }
      "2024-01-01 08:00:00" (by decide) rfl rfl⟩

/-- C10: to_dict maps every field of the entity (unset optional fields
    included, as NULL), omitting only the task_id key and only when the
    identity is unset; stripping task_id the way insert_many does
    leaves every entity with one and the same key list, so the batched
    columns always align and every column lookup insert_many performs
    succeeds. -/
theorem claim10_field_map_uniform :
    (∀ t : Task, (t.to_dict).map Prod.fst
       = if t.task_id = none
         then ["title", "priority", "is_completed", "due_date", "attachment",
               "created_at", "description", "last_updated"]
         else taskFieldNames) ∧
    (∀ t : Task, t.description = none →
       getField t.to_dict "description" = some .null) ∧
    (∀ t : Task, t.due_date = none →
       getField t.to_dict "due_date" = some .null) ∧
    (∀ t : Task, t.attachment = none →
       getField t.to_dict "attachment" = some .null) ∧
    (∀ t : Task, t.created_at = none →
       getField t.to_dict "created_at" = some .null) ∧
    (∀ t : Task, t.last_updated = none →
       getField t.to_dict "last_updated" = some .null) ∧
    (∀ t : Task, ((t.to_dict).filter (fun kv => kv.1 ≠ "task_id")).map Prod.fst
       = ["title", "priority", "is_completed", "due_date", "attachment",
          "created_at", "description", "last_updated"]) ∧
    (∀ t₁ t₂ : Task,
       ((t₁.to_dict).filter (fun kv => kv.1 ≠ "task_id")).map Prod.fst
         = ((t₂.to_dict).filter (fun kv => kv.1 ≠ "task_id")).map Prod.fst) ∧
    (∀ t : Task,
       (["title", "priority", "is_completed", "due_date", "attachment",
         "created_at", "description", "last_updated"].all
           (fun c => (getField ((t.to_dict).filter
               (fun kv => kv.1 ≠ "task_id")) c).isSome)) = true) := by
  have hstrip : ∀ t : Task,
      ((t.to_dict).filter (fun kv => kv.1 ≠ "task_id")).map Prod.fst
        = ["title", "priority", "is_completed", "due_date", "attachment",
           "created_at", "description", "last_updated"] := by
    intro t
    cases h : t.task_id <;> simp [Task.to_dict, h, getField]
  refine ⟨?_, ?_, ?_, ?_, ?_, ?_, hstrip,
    fun t₁ t₂ => (hstrip t₁).trans (hstrip t₂).symm, ?_⟩
  · intro t
    cases h : t.task_id <;> simp [Task.to_dict, h, taskFieldNames]
  · intro t h
    cases ht : t.task_id <;> simp [Task.to_dict, ht, getField, optText, h]
  · intro t h
    cases ht : t.task_id <;> simp [Task.to_dict, ht, getField, optText, h]
  · intro t h
    cases ht : t.task_id <;> simp [Task.to_dict, ht, getField, optText, h]
  · intro t h
    cases ht : t.task_id <;> simp [Task.to_dict, ht, getField, optText, h]
  · intro t h
    cases ht : t.task_id <;> simp [Task.to_dict, ht, getField, optText, h]
  · intro t
    cases h : t.task_id <;> simp [Task.to_dict, h, getField]

/-- Witness for C10's conditional clauses at a concrete entity with all
    optional fields unset. -/
theorem claim10_field_map_uniform_witness :
    getField ({ title := "t" } : Task).to_dict "description" = some .null ∧
    getField ({ title := "t" } : Task).to_dict "due_date" = some .null ∧
    getField ({ title := "t" } : Task).to_dict "attachment" = some .null ∧
    getField ({ title := "t" } : Task).to_dict "created_at" = some .null ∧
    getField ({ title := "t" } : Task).to_dict "last_updated" = some .null :=
  ⟨claim10_field_map_uniform.2.1 { title := "t" } rfl,
   claim10_field_map_uniform.2.2.1 { title := "t" } rfl,
   claim10_field_map_uniform.2.2.2.1 { title := "t" } rfl,
   claim10_field_map_uniform.2.2.2.2.1 { title := "t" } rfl,
   claim10_field_map_uniform.2.2.2.2.2.1 { title := "t" } rfl⟩

end TaskApp
